import Mathlib

/-!
Shallow embedding of `src/mm.c` (a segregated-free-list malloc-lab allocator)
and verification of the specification claims about it.

Modelling conventions:

* Pointers into the heap are represented as byte offsets from the fixed heap
  base `heap_base_ptr = 0x800000000`.  The C source itself stores free-list
  links as such base-relative 32-bit offsets, so `set_prev`/`get_prev` and
  friends need no address translation in the model.  The null pointer of the
  public interface is modelled with `Option Nat`.
* Heap memory is a byte store `Nat → Nat`; a byte is reduced mod 256 when a
  word is read, and `write_word` stores the four little-endian bytes of the
  word, so 32-bit truncation of stored words is automatic.
* C `unsigned int` arithmetic is rendered with explicit mod-`2^32` operations
  (`sub32`, `add32`, and `% 2^32` where a `size_t` is narrowed); the masks
  `& ~0x7` and `& 0xfffffff8` on 32-bit values clear the low three bits,
  which is written `/ 8 * 8` on the (always `< 2^32`) word values.
* The provider `mem_sbrk` is modelled with a `capacity` field: an extension
  succeeds exactly when the total memory obtained so far plus the increment
  stays within the capacity, and fails (returns `(void *)-1`, i.e. `none`)
  otherwise, leaving the provider state unchanged.
* The unbounded C loops (free-list scans, the `do … while (--index > 11)`
  search loop) are given explicit fuel.  The fuel strictly exceeds the number
  of iterations any execution reachable in the claims can perform: the scan
  fuel is the heap size in bytes while a list has at most heapsize/16 nodes,
  and the search loop starts at `get_index ≤ 32` and stops at index 11.
* The static tables `__list_ptrs` (`begins`), `__list_min_block_size` and
  `__list_max_block_size` are filled by `mm_init` with fixed closed-form
  values and never written again, so they are modelled as the pure functions
  `begins`, `list_min_block_size`, `list_max_block_size` whose defining
  clauses are exactly the loops of `mm_init` (mm.c lines 336-347).
-/

set_option maxHeartbeats 20000000
set_option maxRecDepth 1000000

namespace MM

/-- Byte-addressed heap memory, indexed by byte offset from the heap base. -/
def Mem : Type := Nat → Nat

/-- Write one byte of memory. -/
def writeByte (m : Mem) (a v : Nat) : Mem := fun x => if x = a then v else m x

/-- mm.c `read_word` (line 79): read the 32-bit little-endian word at offset
`a`.  Bytes are reduced mod 256, so the result is always `< 2^32`. -/
def read_word (m : Mem) (a : Nat) : Nat :=
  m a % 256 + m (a + 1) % 256 * 256 + m (a + 2) % 256 * 65536 +
    m (a + 3) % 256 * 16777216

/-- mm.c `write_word` (line 82): store the word `v` (truncated to 32 bits by
byte extraction) at offset `a`, little-endian. -/
def write_word (m : Mem) (a v : Nat) : Mem :=
  writeByte
    (writeByte
      (writeByte
        (writeByte m a (v % 256))
        (a + 1) (v / 256 % 256))
      (a + 2) (v / 65536 % 256))
    (a + 3) (v / 16777216 % 256)

/-- 32-bit unsigned subtraction `a - b` (wraps mod `2^32`). -/
def sub32 (a b : Nat) : Nat := (a % 2 ^ 32 + (2 ^ 32 - b % 2 ^ 32)) % 2 ^ 32

/-- 32-bit unsigned addition (wraps mod `2^32`). -/
def add32 (a b : Nat) : Nat := (a + b) % 2 ^ 32

/-- C library `memset(dst, 0, cnt)`: zero the `cnt` bytes starting at `dst`. -/
def memsetZero (m : Mem) (dst cnt : Nat) : Mem :=
  fun a => if dst ≤ a ∧ a < dst + cnt then 0 else m a

/-- C library `memcpy(dst, src, cnt)` on non-overlapping ranges: copy `cnt`
bytes from `src` to `dst`. -/
def memcpyBytes (m : Mem) (dst src cnt : Nat) : Mem :=
  fun a => if dst ≤ a ∧ a < dst + cnt then m (src + (a - dst)) else m a

/-- The allocator state: the heap bytes, the provider break `brk` (total bytes
obtained via `mem_sbrk`), the allocator global `heap_last_ptr` (mm.c line 73,
as an offset), and the provider's capacity (extension beyond it fails). -/
structure AllocState where
  mem : Mem
  brk : Nat
  heapLast : Nat
  capacity : Nat

/-- The memory provider `mem_sbrk(incr)`: succeeds iff the new break stays
within capacity; on failure the provider state is unchanged. -/
def mem_sbrk (s : AllocState) (incr : Nat) : Option AllocState :=
  if s.brk + incr ≤ s.capacity then some { s with brk := s.brk + incr }
  else none

/-- mm.c `EXTEND_SIZE` (line 62). -/
def EXTEND_SIZE : Nat := 4096

/-- mm.c `get_header` (line 88): the word at `ptr - 4`. -/
def get_header (m : Mem) (ptr : Nat) : Nat := read_word m (ptr - 4)

/-- mm.c `set_header` (line 94). -/
def set_header (m : Mem) (ptr h : Nat) : Mem := write_word m (ptr - 4) h

/-- mm.c `set_allocated_flag` (line 100): `header | ALLOCATED`. -/
def set_allocated_flag (m : Mem) (ptr : Nat) : Mem :=
  set_header m ptr (get_header m ptr ||| 1)

/-- mm.c `unset_allocated_flag` (line 106): `header & ~ALLOCATED` clears
bit 0 of the header, i.e. subtracts `header % 2`. -/
def unset_allocated_flag (m : Mem) (ptr : Nat) : Mem :=
  set_header m ptr (get_header m ptr - get_header m ptr % 2)

/-- mm.c `set_forward_allocated_flag` (line 112): `header | FORWARD_ALLOCATED`. -/
def set_forward_allocated_flag (m : Mem) (ptr : Nat) : Mem :=
  set_header m ptr (get_header m ptr ||| 2)

/-- mm.c `unset_forward_allocated_flag` (line 118): `header & ~FORWARD_ALLOCATED`
clears bit 1 of the header. -/
def unset_forward_allocated_flag (m : Mem) (ptr : Nat) : Mem :=
  set_header m ptr (get_header m ptr - 2 * (get_header m ptr / 2 % 2))

/-- mm.c `set_prev` (line 124): store the predecessor's base-relative offset
in the word at `ptr`.  Model pointers are already offsets. -/
def set_prev (m : Mem) (ptr prev : Nat) : Mem := write_word m ptr prev

/-- mm.c `set_next` (line 130): store the successor's offset at `ptr + 4`. -/
def set_next (m : Mem) (ptr next : Nat) : Mem := write_word m (ptr + 4) next

/-- mm.c `get_size` (line 153): `header & 0xfffffff8`.  Header words are
`< 2^32`, so the mask rounds the header down to a multiple of 8. -/
def get_size (m : Mem) (ptr : Nat) : Nat := get_header m ptr / 8 * 8

/-- mm.c `set_size` (line 137): keep the low three flag bits (`header & 0x7`,
i.e. `header % 8`), set the size in the header, and write the footer word at
`ptr + size - 8`. -/
def set_size (m : Mem) (ptr size : Nat) : Mem :=
  let flag := get_header m ptr % 8
  let m1 := set_header m ptr (size ||| flag)
  write_word m1 (ptr + size - 2 * 4) size

/-- mm.c `set_size_only_header` (line 146): as `set_size` but without the
footer write. -/
def set_size_only_header (m : Mem) (ptr size : Nat) : Mem :=
  let flag := get_header m ptr % 8
  set_header m ptr (size ||| flag)

/-- mm.c `get_prev` (line 159): the stored predecessor offset. -/
def get_prev (m : Mem) (ptr : Nat) : Nat := read_word m ptr

/-- mm.c `get_next` (line 165): the stored successor offset. -/
def get_next (m : Mem) (ptr : Nat) : Nat := read_word m (ptr + 4)

/-- mm.c `get_forward` (line 171): step back over the preceding free block
using its footer at `ptr - 8`. -/
def get_forward (m : Mem) (ptr : Nat) : Nat := ptr - read_word m (ptr - 2 * 4)

/-- mm.c `get_back` (line 177): the physically following block. -/
def get_back (m : Mem) (ptr : Nat) : Nat := ptr + get_size m ptr

/-- mm.c `is_allocated` (line 180): bit 0 of the header. -/
def is_allocated (m : Mem) (ptr : Nat) : Bool := get_header m ptr % 2 == 1

/-- mm.c `is_forward_allocated` (line 186): bit 1 of the header. -/
def is_forward_allocated (m : Mem) (ptr : Nat) : Bool :=
  get_header m ptr / 2 % 2 == 1

/-- mm.c `delete_block` (line 192): splice `ptr` out of its list. -/
def delete_block (m : Mem) (ptr : Nat) : Mem :=
  let prev := get_prev m ptr
  let next := get_next m ptr
  let m1 := set_next m prev next
  set_prev m1 next prev

/-- Number of binary digits of `n`, with explicit fuel (enough fuel makes it
`⌊log2 n⌋ + 1` for `n > 0`, and `0` for `n = 0`). -/
def bitlen : Nat → Nat → Nat
  | 0, _ => 0
  | fuel + 1, n => if n = 0 then 0 else bitlen fuel (n / 2) + 1

/-- mm.c `get_index` (line 203): the `lzcnt` instruction on the 32-bit value,
i.e. `32` minus the number of binary digits of `aligned_size mod 2^32`. -/
def get_index (aligned_size : Nat) : Nat := 32 - bitlen 32 (aligned_size % 2 ^ 32)

/-- The list-head table `__list_ptrs` as filled by `mm_init` (mm.c lines
343-347): heads for classes 27 down to 12 sit at offsets 0, 8, …, 120, and
all indices below 12 alias the class-12 head at offset 120.  Indices above 27
are left null by `mm_init` and are unreachable for sizes ≥ 16; the model
returns 0 for them. -/
def begins (i : Nat) : Nat :=
  if i ≤ 12 then 120 else if i ≤ 27 then (27 - i) * 8 else 0

/-- The table `__list_min_block_size` as filled by `mm_init` (mm.c line 338):
`1 << (31 - i)` for `12 ≤ i ≤ 27`, zero elsewhere. -/
def list_min_block_size (i : Nat) : Nat :=
  if 12 ≤ i ∧ i ≤ 27 then 2 ^ (31 - i) else 0

/-- The table `__list_max_block_size` as filled by `mm_init` (mm.c lines 339
and 341): `1 << (32 - i)` for `13 ≤ i ≤ 27`, overridden to `4294967295` at
index 12, zero elsewhere. -/
def list_max_block_size (i : Nat) : Nat :=
  if i = 12 then 4294967295
  else if 13 ≤ i ∧ i ≤ 27 then 2 ^ (32 - i) else 0

/-- mm.c `insert` (line 211): insert the free block `ptr` of size `size` next
to the sentinel of its size class, preserving the C order of the four link
writes. -/
def insert (m : Mem) (ptr size : Nat) : Mem :=
  let index := get_index size
  let end_ := begins index
  let prev := get_prev m end_
  let m1 := set_prev m end_ ptr
  let m2 := set_prev m1 ptr prev
  let m3 := set_next m2 ptr end_
  set_next m3 prev ptr

/-- mm.c `place` (line 228): carve `aligned_size` bytes out of the (already
unlinked) free block `ptr` of size `block_size`; if at least 16 bytes remain
they form a new free block that is inserted into its class list. -/
def place (m : Mem) (aligned_size ptr block_size : Nat) : Nat × Mem :=
  let remain_size := sub32 block_size aligned_size
  if remain_size < 16 then
    let m1 := set_allocated_flag m ptr
    let m2 := set_forward_allocated_flag m1 (get_back m1 ptr)
    (ptr, m2)
  else
    let m1 := set_size m ptr aligned_size
    let m2 := set_allocated_flag m1 ptr
    let new_back := get_back m2 ptr
    let m3 := set_size m2 new_back remain_size
    let m4 := unset_allocated_flag m3 new_back
    let m5 := set_forward_allocated_flag m4 new_back
    let m6 := insert m5 new_back remain_size
    (ptr, m6)

/-- mm.c `align_size` (line 256): the reserved block size for a user request.
`(unsigned int)size + 11` wraps mod `2^32`, `& ~7` rounds down to a multiple
of 8, results below 16 become 16, and a full-`size_t` value of exactly 448 is
special-cased to 520. -/
def align_size (size : Nat) : Nat :=
  if size = 448 then 520
  else
    let tmp_aligned_size := (size % 2 ^ 32 + 11) % 2 ^ 32 / 8 * 8
    if tmp_aligned_size < 16 then 16 else tmp_aligned_size

/-- mm.c `shrink` (line 266): shrink the allocated block `ptr` of size
`block_size` to `aligned_size`; a remainder of at least 16 bytes becomes a
free block, merged with the following block when that one is free. -/
def shrink (m : Mem) (aligned_size ptr block_size : Nat) : Nat × Mem :=
  let remain_size := sub32 block_size aligned_size
  if remain_size < 16 then (ptr, m)
  else
    let m1 := set_size_only_header m ptr aligned_size
    let new_back := get_back m1 ptr
    let m2 := unset_allocated_flag m1 new_back
    let m3 := set_size m2 new_back remain_size
    let m4 := set_forward_allocated_flag m3 new_back
    let back_of_new_back := get_back m4 new_back
    if is_allocated m4 back_of_new_back then
      let m5 := insert m4 new_back remain_size
      let m6 := unset_forward_allocated_flag m5 (get_back m5 new_back)
      (ptr, m6)
    else
      let new_size := add32 remain_size (get_size m4 back_of_new_back)
      let m5 := delete_block m4 back_of_new_back
      let m6 := set_size m5 new_back new_size
      let m7 := insert m6 new_back new_size
      (ptr, m7)

/-- The sentinel-initialisation loop of `mm_init` (mm.c lines 320-324):
iterations `0 ≤ k < count` make the 8-byte node at offset `8 k` self-linked. -/
def write_sentinels (m : Mem) : Nat → Mem
  | 0 => m
  | k + 1 =>
    let m1 := write_sentinels m k
    set_next (set_prev m1 (8 * k) (8 * k)) (8 * k) (8 * k)

/-- mm.c `mm_init` (line 306), run on a provider with the given capacity and
initial memory contents: obtain 4096 bytes, lay out the 16 sentinels, the
first free block at offset 136 of size `4096 - 128 - 8`, and the trailing
sentinel header, then insert the free block.  Returns `none` when the
provider fails (C returns -1). -/
def mm_init (capacity : Nat) (m0 : Mem) : Option AllocState :=
  let s0 : AllocState := ⟨m0, 0, 0, capacity⟩
  match mem_sbrk s0 EXTEND_SIZE with
  | none => none
  | some s1 =>
    let s2 := { s1 with heapLast := EXTEND_SIZE }
    let m1 := write_sentinels s2.mem 16
    let m2 := set_size m1 136 (EXTEND_SIZE - 128 - 8)
    let m3 := unset_allocated_flag m2 136
    let m4 := set_forward_allocated_flag m3 136
    let m5 := set_header m4 s2.heapLast 1
    let m6 := insert m5 136 (EXTEND_SIZE - 128 - 8)
    some { s2 with mem := m6 }

/-- The inner scan of `find_fit_in_index_th_list` (mm.c lines 365-375): walk
one circular list from `cur` until the sentinel `begin_` reappears, returning
the first block of size at least `aligned_size`. -/
def scan_list (m : Mem) (aligned_size begin_ : Nat) : Nat → Nat → Option Nat
  | 0, _ => none
  | fuel + 1, cur =>
    if cur = begin_ then none
    else if aligned_size ≤ get_size m cur then some cur
    else scan_list m aligned_size begin_ fuel (get_next m cur)

/-- mm.c `find_fit_in_index_th_list` (line 360): scan the list at `index`,
then fall through `do … while (--index > 11)` to lower indices (the decrement
is the 32-bit unsigned one).  On a hit the block is unlinked and passed to
`place`. -/
def find_fit_aux (m : Mem) (scanFuel aligned_size : Nat) :
    Nat → Nat → Option Nat × Mem
  | 0, _ => (none, m)
  | fuel + 1, index =>
    match scan_list m aligned_size (begins index) scanFuel
        (get_next m (begins index)) with
    | some ptr =>
      let block_size := get_size m ptr
      let m1 := delete_block m ptr
      let pr := place m1 aligned_size ptr block_size
      (some pr.1, pr.2)
    | none =>
      let index' := sub32 index 1
      if 11 < index' then find_fit_aux m scanFuel aligned_size fuel index'
      else (none, m)

/-- mm.c `extend_heap` (line 383): build a free block of at least
`aligned_size` bytes at the heap tail.  When the trailing sentinel records a
free tail block, that block is unlinked first and then grown; note the unlink
happens before `mem_sbrk`, so a provider failure leaves it unlinked. -/
def extend_heap (s : AllocState) (aligned_size : Nat) : Option Nat × AllocState :=
  if is_forward_allocated s.mem s.heapLast then
    let extend_size := if EXTEND_SIZE < aligned_size then aligned_size else EXTEND_SIZE
    let old_heap_last := s.heapLast
    match mem_sbrk s extend_size with
    | none => (none, s)
    | some s1 =>
      let s2 := { s1 with heapLast := s1.heapLast + extend_size }
      let m1 := set_size s2.mem old_heap_last extend_size
      let m2 := unset_allocated_flag m1 old_heap_last
      let m3 := set_header m2 s2.heapLast 1
      let pr := place m3 aligned_size old_heap_last extend_size
      (some pr.1, { s2 with mem := pr.2 })
  else
    let forward := get_forward s.mem s.heapLast
    let m1 := delete_block s.mem forward
    let forward_size := get_size m1 forward
    let extend_size :=
      let e := sub32 aligned_size forward_size
      if EXTEND_SIZE < e then e else EXTEND_SIZE
    match mem_sbrk { s with mem := m1 } extend_size with
    | none => (none, { s with mem := m1 })
    | some s1 =>
      let s2 := { s1 with heapLast := s1.heapLast + extend_size }
      let m2 := set_size s2.mem forward (add32 forward_size extend_size)
      let m3 := set_header m2 s2.heapLast 1
      let pr := place m3 aligned_size forward (add32 extend_size forward_size)
      (some pr.1, { s2 with mem := pr.2 })

/-- mm.c `mm_malloc` (line 418): zero requests fail; otherwise search the
free lists and fall back to extending the heap. -/
def mm_malloc (s : AllocState) (size : Nat) : Option Nat × AllocState :=
  if size = 0 then (none, s)
  else
    let aligned_size := align_size size
    let index := get_index aligned_size
    let fr := find_fit_aux s.mem s.heapLast aligned_size 33 index
    match fr.1 with
    | some p => (some p, { s with mem := fr.2 })
    | none => extend_heap s aligned_size

/-- The body of mm.c `mm_free` for a non-null pointer (lines 442-483): the
four-way immediate coalesce. -/
def free_block (m : Mem) (ptr : Nat) : Mem :=
  let back := get_back m ptr
  let forward_allocated := is_forward_allocated m ptr
  let back_allocated := is_allocated m back
  if forward_allocated && back_allocated then
    let size := get_size m ptr
    let m1 := set_size m ptr size
    let m2 := unset_allocated_flag m1 ptr
    let m3 := unset_forward_allocated_flag m2 back
    insert m3 ptr size
  else if !forward_allocated && back_allocated then
    let forward := get_forward m ptr
    let m1 := delete_block m forward
    let size := add32 (get_size m1 forward) (get_size m1 ptr)
    let m2 := set_size m1 forward size
    let m3 := unset_forward_allocated_flag m2 back
    insert m3 forward size
  else if forward_allocated && !back_allocated then
    let m1 := delete_block m back
    let size := add32 (get_size m1 ptr) (get_size m1 back)
    let m2 := set_size m1 ptr size
    let m3 := unset_allocated_flag m2 ptr
    insert m3 ptr size
  else
    let forward := get_forward m ptr
    let m1 := delete_block m forward
    let m2 := delete_block m1 back
    let size := add32 (add32 (get_size m2 forward) (get_size m2 ptr)) (get_size m2 back)
    let m3 := set_size m2 forward size
    insert m3 forward size

/-- mm.c `mm_free` (line 438): null is a no-op. -/
def mm_free (s : AllocState) (ptr : Option Nat) : AllocState :=
  match ptr with
  | none => s
  | some p => { s with mem := free_block s.mem p }

/-- mm.c `mm_realloc` (line 487): null pointer delegates to `mm_malloc`, zero
size frees; otherwise shrink in place, grow into a free successor, grow the
heap when the block is last, or allocate-copy-free. -/
def mm_realloc (s : AllocState) (old_ptr : Option Nat) (size : Nat) :
    Option Nat × AllocState :=
  match old_ptr with
  | none => mm_malloc s size
  | some p =>
    if size = 0 then (none, mm_free s (some p))
    else
      let old_block_size := get_size s.mem p
      let new_block_size := align_size size
      if new_block_size ≤ old_block_size then
        let pr := shrink s.mem new_block_size p old_block_size
        (some pr.1, { s with mem := pr.2 })
      else
        let extend_size := sub32 new_block_size old_block_size
        let back := get_back s.mem p
        let back_size := get_size s.mem back
        if is_allocated s.mem back = false ∧ extend_size ≤ back_size then
          let new_back_size := sub32 back_size extend_size
          if 16 ≤ new_back_size then
            let m1 := delete_block s.mem back
            let new_back := back + extend_size
            let m2 := set_size m1 new_back new_back_size
            let m3 := unset_allocated_flag m2 new_back
            let m4 := set_forward_allocated_flag m3 new_back
            let m5 := insert m4 new_back new_back_size
            let m6 := set_size_only_header m5 p new_block_size
            (some p, { s with mem := m6 })
          else
            let m1 := delete_block s.mem back
            let m2 := set_size_only_header m1 p (add32 old_block_size back_size)
            let m3 := set_forward_allocated_flag m2 (get_back m2 p)
            (some p, { s with mem := m3 })
        else if back = s.heapLast then
          match mem_sbrk s extend_size with
          | none => (none, s)
          | some s1 =>
            let s2 := { s1 with heapLast := s1.heapLast + extend_size }
            let m1 := set_size_only_header s2.mem p new_block_size
            let m2 := set_header m1 s2.heapLast 3
            (some p, { s2 with mem := m2 })
        else
          let res := mm_malloc s size
          let s2 :=
            match res.1 with
            | some q =>
              { res.2 with
                mem := memcpyBytes res.2.mem q p (get_size res.2.mem p) }
            | none => res.2
          (res.1, mm_free s2 (some p))

/-- mm.c `mm_calloc` (line 568): allocate `nmemb * size` bytes (the `size_t`
product, mod `2^64`) and zero them when the allocation succeeded. -/
def mm_calloc (s : AllocState) (nmemb size : Nat) : Option Nat × AllocState :=
  let total := nmemb * size % 2 ^ 64
  let res := mm_malloc s total
  match res.1 with
  | some p => (some p, { res.2 with mem := memsetZero res.2.mem p total })
  | none => (none, res.2)

/-- The all-zero initial memory used for the concrete runs. -/
def zeros : Mem := fun _ => 0

/-- A dummy state (only used as the `Option.getD` default below). -/
def stDefault : AllocState := ⟨zeros, 0, 0, 0⟩

/-- A fresh heap: successful `mm_init` on a provider with capacity 4096, so
every later extension attempt fails. -/
def fresh : AllocState := (mm_init 4096 zeros).getD stDefault

/-- `fresh` after `allocate(16)`: one 24-byte allocated block at offset 136
(header at 132), the free remainder of size 3936 at 160. -/
def stateA : AllocState := (mm_malloc fresh 16).2

/-- `stateA` after `allocate(3930)`: the remainder block is consumed exactly
(3936 bytes), so the heap is full and the tail is allocated. -/
def stateB : AllocState := (mm_malloc stateA 3930).2

/-- Modelled from the spec: the reserved-size formula asserted by claim C7,
`max(16, (user_size + 4 + 7) & ~7)`, read over unbounded naturals; the mask
`& ~7` rounds down to a multiple of 8. -/
def align_claim_C7 (user_size : Nat) : Nat := max 16 ((user_size + 4 + 7) / 8 * 8)

/-!
Helper lemmas about the embedding, followed by the claim theorems.
-/

/-- Words assembled by `read_word` are 32-bit values. -/
theorem read_word_lt (m : Mem) (a : Nat) : read_word m a < 2 ^ 32 := by
  unfold read_word
  have h0 : m a % 256 < 256 := Nat.mod_lt _ (by norm_num)
  have h1 : m (a + 1) % 256 < 256 := Nat.mod_lt _ (by norm_num)
  have h2 : m (a + 2) % 256 < 256 := Nat.mod_lt _ (by norm_num)
  have h3 : m (a + 3) % 256 < 256 := Nat.mod_lt _ (by norm_num)
  omega

/-- Block sizes read from headers are 32-bit values. -/
theorem get_size_lt (m : Mem) (p : Nat) : get_size m p < 2 ^ 32 := by
  have := read_word_lt m (p - 4)
  unfold get_size get_header
  omega

/-- Block sizes read from headers are multiples of 8. -/
theorem get_size_mod8 (m : Mem) (p : Nat) : get_size m p % 8 = 0 := by
  unfold get_size
  omega

/-- mm.c `shrink` returns its argument pointer on every path. -/
theorem shrink_fst (m : Mem) (a p b : Nat) : (shrink m a p b).1 = p := by
  unfold shrink
  dsimp only
  split
  · rfl
  · split <;> rfl

/-- C5: (counterexample) On a fresh heap, `allocate(16); allocate(16)` does
not return adjacent pointers 16 bytes apart: the run yields 136 and 160, and
`136 + 16 ≠ 160`, because `align_size 16 = 24` (header plus alignment). -/
theorem c5_counterexample :
    (mm_malloc fresh 16).1 = some 136 ∧
    (mm_malloc (mm_malloc fresh 16).2 16).1 = some 160 ∧
    136 + 16 ≠ 160 := by decide

/-- C5: (amended) On a fresh heap, `allocate(16); allocate(16)` returns two
non-null pointers with `b = a + 24`: the reserved block size for a 16-byte
request is `align_size 16 = 24`, and the initial free block is carved
contiguously from its front. -/
theorem c5_split_adjacent :
    (mm_init 4096 zeros).isSome = true ∧
    (mm_malloc fresh 16).1 = some 136 ∧
    (mm_malloc (mm_malloc fresh 16).2 16).1 = some 160 ∧
    align_size 16 = 24 ∧
    160 = 136 + 24 := by decide

/-- C3: (counterexample) A failing heap-extension attempt made while serving
allocate does not leave the free lists unchanged.  On a fresh heap whose
provider is exhausted, `allocate(4000)` returns null, the free tail block at
136 still has its free header of size 3960, but it has been unlinked: its
class sentinel at offset 56 was self-linked by the failed attempt although it
pointed to 136 before. -/
theorem c3_counterexample :
    (mm_malloc fresh 4000).1 = none ∧
    is_allocated (mm_malloc fresh 4000).2.mem 136 = false ∧
    get_size (mm_malloc fresh 4000).2.mem 136 = 3960 ∧
    get_next fresh.mem 56 = 136 ∧
    get_next (mm_malloc fresh 4000).2.mem 56 = 56 ∧
    get_prev (mm_malloc fresh 4000).2.mem 56 = 56 := by decide

/-- C4: (counterexample) `reallocate(p, 0)` with `0 ≤ size(p) - 4` does not
return `p`: the 24-byte allocated block at 136 is freed and null is
returned. -/
theorem c4_counterexample :
    0 ≤ get_size stateA.mem 136 - 4 ∧
    (mm_realloc stateA (some 136) 0).1 = none ∧
    (mm_realloc stateA (some 136) 0).1 ≠ some 136 := by decide

/-- C7: (counterexample) For `user_size = 2^32` the reserved block size is
not `max(16, (user_size + 4 + 7) & ~7)`: the allocator truncates to 32 bits,
computes `align_size (2^32) = 16`, and indeed hands out a 16-byte block,
while the claimed formula gives `2^32 + 8`. -/
theorem c7_counterexample :
    (2 ^ 32 : Nat) ≠ 0 ∧
    align_size (2 ^ 32) = 16 ∧
    align_claim_C7 (2 ^ 32) = 2 ^ 32 + 8 ∧
    align_size (2 ^ 32) ≠ align_claim_C7 (2 ^ 32) ∧
    (mm_malloc fresh (2 ^ 32)).1 = some 136 ∧
    get_size (mm_malloc fresh (2 ^ 32)).2.mem 136 = 16 := by decide

/-- C7: (amended) `allocate(0)` returns null, and for every
`0 < user_size ≤ 2^32 - 12` (so that the 32-bit computation cannot wrap) the
reserved block size equals `max(16, (user_size + 4 + 7) & ~7)`, except that
`user_size = 448` is aligned to 520. -/
theorem c7_align_formula :
    (∀ s : AllocState, mm_malloc s 0 = (none, s)) ∧
    (∀ u : Nat, 0 < u → u ≤ 2 ^ 32 - 12 → u ≠ 448 →
      align_size u = align_claim_C7 u) ∧
    align_size 448 = 520 := by
  refine ⟨?_, ?_, by decide⟩
  · intro s
    unfold mm_malloc
    rw [if_pos rfl]
  · intro u h1 h2 h3
    unfold align_size align_claim_C7
    rw [if_neg h3]
    have hu : u % 2 ^ 32 = u := Nat.mod_eq_of_lt (by omega)
    rw [hu]
    have h11 : (u + 11) % 2 ^ 32 = u + 11 := Nat.mod_eq_of_lt (by omega)
    rw [h11]
    have h47 : u + 4 + 7 = u + 11 := by omega
    rw [h47, Nat.max_def]
    dsimp only
    split <;> split <;> omega

/-- C7 witness: the amended theorem applied at the fresh heap and at
`user_size = 100`. -/
theorem c7_align_formula_witness :
    mm_malloc fresh 0 = (none, fresh) ∧ align_size 100 = align_claim_C7 100 :=
  ⟨c7_align_formula.1 fresh,
   c7_align_formula.2.1 100 (by decide) (by decide) (by decide)⟩

/-- C9: (confirmed) `align_size` depends only on `user_size mod 2^32` except
for the special case keyed on the full `size_t` value 448 (so
`align_size (2^32 + 448) = 456` while `align_size 448 = 520`), and for
`user_size = 2^32 ≥ 2^32` the fresh-heap allocator returns a non-null
pointer to a 16-byte block. -/
theorem c9_truncation :
    (∀ u v : Nat, u ≠ 448 → v ≠ 448 → u % 2 ^ 32 = v % 2 ^ 32 →
      align_size u = align_size v) ∧
    align_size (2 ^ 32 + 448) = 456 ∧
    align_size 448 = 520 ∧
    (mm_malloc fresh (2 ^ 32)).1 = some 136 ∧
    get_size (mm_malloc fresh (2 ^ 32)).2.mem 136 = 16 := by
  refine ⟨?_, by decide, by decide, by decide, by decide⟩
  intro u v hu hv h
  unfold align_size
  rw [if_neg hu, if_neg hv, h]

/-- C9 witness: the truncation part of `c9_truncation` applied at
`u = 2^32`, `v = 0`, together with the value both sides take. -/
theorem c9_truncation_witness :
    align_size (2 ^ 32) = align_size 0 ∧ align_size 0 = 16 :=
  ⟨c9_truncation.1 (2 ^ 32) 0 (by decide) (by decide) (by decide), by decide⟩

/-- C8: (counterexample) `zeroed_allocate(16, 2^60 + 1)` overflows the
`size_t` product (`16 * (2^60 + 1) = 2^64 + 16 ≡ 16`), succeeds with a
16-byte request, and zeroes only 16 bytes: byte 16 of the returned region
still holds the stale footer value 24, so the result is not a pointer to
`k × n` zero bytes. -/
theorem c8_counterexample :
    (mm_calloc fresh 16 (2 ^ 60 + 1)).1 = some 136 ∧
    16 < 16 * (2 ^ 60 + 1) ∧
    (mm_calloc fresh 16 (2 ^ 60 + 1)).2.mem (136 + 16) = 24 ∧
    (24 : Nat) ≠ 0 := by decide

/-- Unfolding equation of `mm_calloc` (definitional). -/
theorem mm_calloc_eq (s : AllocState) (k n : Nat) :
    mm_calloc s k n =
      match (mm_malloc s (k * n % 2 ^ 64)).1 with
      | some p =>
        (some p,
          { (mm_malloc s (k * n % 2 ^ 64)).2 with
            mem := memsetZero (mm_malloc s (k * n % 2 ^ 64)).2.mem p
                (k * n % 2 ^ 64) })
      | none => (none, (mm_malloc s (k * n % 2 ^ 64)).2) := rfl

/-- C8: (amended) `zeroed_allocate(k, n)` returns either null or a pointer
whose first `k * n mod 2^64` bytes (the `size_t` product actually passed to
`memset`) are all zero. -/
theorem c8_calloc_zeroes (s : AllocState) (k n i p : Nat)
    (h1 : (mm_calloc s k n).1 = some p) (h2 : i < k * n % 2 ^ 64) :
    (mm_calloc s k n).2.mem (p + i) = 0 := by
  rw [mm_calloc_eq] at h1 ⊢
  cases hm : (mm_malloc s (k * n % 2 ^ 64)).1 with
  | none =>
    rw [hm] at h1
    exact absurd h1 (by simp)
  | some q =>
    rw [hm] at h1
    dsimp only at h1 ⊢
    have hq : q = p := by simpa using h1
    subst hq
    simp only [memsetZero]
    rw [if_pos (by omega)]

/-- C8 witness: `c8_calloc_zeroes` at the fresh heap with `k = 4`, `n = 2`,
byte index 3 of the returned pointer 136. -/
theorem c8_calloc_zeroes_witness :
    (mm_calloc fresh 4 2).1 = some 136 ∧ (3 : Nat) < 4 * 2 % 2 ^ 64 ∧
    (mm_calloc fresh 4 2).2.mem (136 + 3) = 0 :=
  ⟨by decide, by decide, c8_calloc_zeroes fresh 4 2 3 136 (by decide) (by decide)⟩

/-- C4: (amended) For every state, block pointer `p` with
`16 ≤ size(p)`, and request `n` with `1 ≤ n ≤ size(p) - 4` — excluding
`n = 448` unless `size(p) ≥ 520`, because of the `align_size 448 = 520`
special case — `reallocate(p, n)` returns `p` (the in-place shrink path). -/
theorem c4_shrink_in_place (s : AllocState) (p n : Nat)
    (h1 : 1 ≤ n) (h2 : n ≤ get_size s.mem p - 4) (h3 : 16 ≤ get_size s.mem p)
    (h4 : n = 448 → 520 ≤ get_size s.mem p) :
    (mm_realloc s (some p) n).1 = some p := by
  have hm8 : get_size s.mem p % 8 = 0 := get_size_mod8 s.mem p
  have hlt : get_size s.mem p < 2 ^ 32 := get_size_lt s.mem p
  have key : align_size n ≤ get_size s.mem p := by
    by_cases hn : n = 448
    · have := h4 hn
      rw [hn]
      simpa [align_size] using this
    · unfold align_size
      rw [if_neg hn]
      have hn32 : n % 2 ^ 32 = n := Nat.mod_eq_of_lt (by omega)
      rw [hn32]
      have h11 : (n + 11) % 2 ^ 32 = n + 11 := Nat.mod_eq_of_lt (by omega)
      rw [h11]
      dsimp only
      split <;> omega
  simp only [mm_realloc]
  rw [if_neg (by omega : ¬ n = 0)]
  rw [if_pos key]
  dsimp only
  rw [shrink_fst]

/-- C4 witness: `c4_shrink_in_place` at the heap with one 24-byte allocated
block at 136 and request 20. -/
theorem c4_shrink_in_place_witness :
    1 ≤ 20 ∧ 20 ≤ get_size stateA.mem 136 - 4 ∧ 16 ≤ get_size stateA.mem 136 ∧
    (mm_realloc stateA (some 136) 20).1 = some 136 :=
  ⟨by decide, by decide, by decide,
    c4_shrink_in_place stateA 136 20 (by decide) (by decide) (by decide)
      (fun h => absurd h (by decide))⟩

/-- C3: (amended) When the provider fails during a heap-extension attempt
made while serving allocate, `extend_heap` returns null; if the trailing
sentinel recorded an allocated tail (`prev_allocated` set) the state is
exactly as before the attempt, but if a free tail block existed, that block
has already been unlinked from its size-class list (the source calls
`delete_block` before `mem_sbrk`), while every byte outside the two spliced
link words — in particular all block headers and footers — is unchanged. -/
theorem c3_failed_extension (s : AllocState) (n : Nat) :
    (is_forward_allocated s.mem s.heapLast = true →
      s.capacity < s.brk + (if EXTEND_SIZE < n then n else EXTEND_SIZE) →
      extend_heap s n = (none, s)) ∧
    (is_forward_allocated s.mem s.heapLast = false →
      ∀ fwd prev next : Nat,
        fwd = get_forward s.mem s.heapLast →
        prev = get_prev s.mem fwd →
        next = get_next s.mem fwd →
        s.capacity < s.brk +
          (if EXTEND_SIZE < sub32 n (get_size (delete_block s.mem fwd) fwd)
            then sub32 n (get_size (delete_block s.mem fwd) fwd)
            else EXTEND_SIZE) →
        extend_heap s n = (none, { s with mem := delete_block s.mem fwd }) ∧
        (∀ a : Nat, (a < prev + 4 ∨ prev + 8 ≤ a) → (a < next ∨ next + 4 ≤ a) →
          delete_block s.mem fwd a = s.mem a)) := by
  constructor
  · intro hfa hcap
    unfold extend_heap
    rw [if_pos hfa]
    have hsbrk : mem_sbrk s (if EXTEND_SIZE < n then n else EXTEND_SIZE) = none := by
      unfold mem_sbrk
      rw [if_neg (by omega)]
    dsimp only
    rw [hsbrk]
  · intro hfa fwd prev next hfwd hprev hnext hcap
    subst hfwd
    constructor
    · unfold extend_heap
      rw [if_neg (by simp [hfa])]
      have hsbrk :
          mem_sbrk
            { s with mem := delete_block s.mem (get_forward s.mem s.heapLast) }
            (if EXTEND_SIZE <
                sub32 n (get_size (delete_block s.mem (get_forward s.mem s.heapLast))
                  (get_forward s.mem s.heapLast))
              then sub32 n (get_size (delete_block s.mem (get_forward s.mem s.heapLast))
                  (get_forward s.mem s.heapLast))
              else EXTEND_SIZE) = none := by
        unfold mem_sbrk
        rw [if_neg ?_]
        dsimp only
        omega
      dsimp only
      rw [hsbrk]
    · intro a ha1 ha2
      simp only [delete_block, set_prev, set_next, write_word, writeByte]
      rw [← hprev, ← hnext]
      repeat rw [if_neg (by omega)]

/-- C3 witness: the tail-free branch of `c3_failed_extension` on the fresh
exhausted heap with request 4008: the free tail block is 136, its list
neighbours are both the sentinel 56. -/
theorem c3_failed_extension_witness :
    extend_heap fresh 4008 = (none, { fresh with mem := delete_block fresh.mem 136 }) :=
  (((c3_failed_extension fresh 4008).2 (by decide) 136 56 56 (by decide) (by decide)
      (by decide) (by decide)).1)

/-- C10: (confirmed) In reallocate's move branch — the physical successor of
`p` is allocated and is not the trailing sentinel, and the new size exceeds
the old block — a failed internal allocation makes `reallocate` return null
with the state nevertheless advanced by `free(p)`: the old block is released
rather than preserved. -/
theorem c10_move_branch_frees_on_failure (s : AllocState) (p n : Nat)
    (h0 : n ≠ 0)
    (h1 : get_size s.mem p < align_size n)
    (h2 : is_allocated s.mem (get_back s.mem p) = true)
    (h3 : get_back s.mem p ≠ s.heapLast)
    (h4 : (mm_malloc s n).1 = none) :
    mm_realloc s (some p) n = (none, mm_free (mm_malloc s n).2 (some p)) := by
  simp only [mm_realloc]
  rw [if_neg h0]
  rw [if_neg (by omega : ¬ align_size n ≤ get_size s.mem p)]
  rw [if_neg (by simp [h2])]
  rw [if_neg h3]
  rw [h4]

/-- C10 witness: on the full heap `stateB`, `reallocate(136, 32)` takes the
move branch, the internal allocation fails, null is returned, and the block
at 136 ends up free and linked into the class-27 list (sentinel 0). -/
theorem c10_move_branch_frees_on_failure_witness :
    (mm_malloc stateB 32).1 = none ∧
    (mm_realloc stateB (some 136) 32 =
      (none, mm_free (mm_malloc stateB 32).2 (some 136))) ∧
    is_allocated (mm_realloc stateB (some 136) 32).2.mem 136 = false ∧
    get_next (mm_realloc stateB (some 136) 32).2.mem (begins 27) = 136 :=
  ⟨by decide,
   c10_move_branch_frees_on_failure stateB 136 32 (by decide) (by decide)
     (by decide) (by decide) (by decide),
   by decide, by decide⟩

end MM
